import Mathlib

/-!
Verification of the moderation logic in `bot.py` (sekai-mod-bot).

The file shallowly embeds the pure content of the bot: the JSON offense
ledger helpers (`load_offenses`, `add_offense`, `get_offenses`, the body of
`reset_offenses`), the notice formatter `format_rule_notice`, the link
parser inside `delete_message_from_link`, the audit logger `send_modlog`,
and the two command orchestrators `strike` and `quick_delete_timeout`.
External Discord calls (channel fetch and delete, timeout, ban, direct
message, embed posting) are modelled as oracle parameters describing the
outcome the platform would return; Python exceptions become `Except` or
`Option` results; the Python dict backing the ledger becomes an
association list with dict-style get and set.
-/

namespace SekaiModBot

/-- Python `data.get(key, default)` on the offense dict. -/
def dictGetD (data : List (String × Nat)) (key : String) (default : Nat) : Nat :=
  match data.lookup key with
  | some v => v
  | none => default

/-- Python `data[key] = v` on the offense dict: replaces the binding in place
or appends a fresh one. -/
def dictSet (data : List (String × Nat)) (key : String) (v : Nat) : List (String × Nat) :=
  match data with
  | [] => [(key, v)]
  | (k, w) :: rest => if k = key then (key, v) :: rest else (k, w) :: dictSet rest key v

theorem lookup_dictSet_self (data : List (String × Nat)) (key : String) (v : Nat) :
    (dictSet data key v).lookup key = some v := by
  induction data with
  | nil => simp [dictSet, List.lookup]
  | cons hd tl ih =>
    obtain ⟨k, w⟩ := hd
    by_cases h : k = key
    · simp [dictSet, h, List.lookup]
    · have hne : (key == k) = false := by
        simp only [beq_eq_false_iff_ne, ne_eq]
        exact fun e => h e.symm
      simp [dictSet, h, List.lookup, hne, ih]

theorem dictGetD_dictSet_self (data : List (String × Nat)) (key : String) (v d : Nat) :
    dictGetD (dictSet data key v) key d = v := by
  simp [dictGetD, lookup_dictSet_self]

theorem dictSet_dictSet_self (data : List (String × Nat)) (key : String) (v w : Nat) :
    dictSet (dictSet data key v) key w = dictSet data key w := by
  induction data with
  | nil => simp [dictSet]
  | cons hd tl ih =>
    obtain ⟨k, u⟩ := hd
    by_cases h : k = key
    · simp [dictSet, h]
    · simp [dictSet, h, ih]

/-- State of the JSON file `offenses.json` backing the ledger: missing from
disk, present but not valid JSON, or a stored dict. -/
inductive Storage where
  | absent : Storage
  | corrupt : Storage
  | stored : List (String × Nat) → Storage
deriving DecidableEq

/-- Embeds `load_offenses`: a missing file is first created holding the empty
dict and then read back; `json.load` on a corrupt file raises (modelled as
`Except.error`); otherwise the stored dict is returned together with the
resulting file state. -/
def load_offenses : Storage → Except String (Storage × List (String × Nat))
  | Storage.absent => Except.ok (Storage.stored [], [])
  | Storage.corrupt => Except.error "json.decoder.JSONDecodeError"
  | Storage.stored data => Except.ok (Storage.stored data, data)

/-- Embeds `get_offenses` including the `load_offenses` file access, so that
the behaviour on missing or corrupt storage is visible. -/
def get_offenses_file (st : Storage) (user_id : Nat) : Except String Nat :=
  (load_offenses st).map fun p => dictGetD p.2 (toString user_id) 0

/-- Embeds `get_offenses` on an already loaded dict: `data.get(str(user_id), 0)`. -/
def get_offenses (data : List (String × Nat)) (user_id : Nat) : Nat :=
  dictGetD data (toString user_id) 0

/-- Embeds `add_offense`: read the current count with default 0, add one,
store it back, return the new dict together with the new count. -/
def add_offense (data : List (String × Nat)) (user_id : Nat) :
    List (String × Nat) × Nat :=
  let current := dictGetD data (toString user_id) 0 + 1
  (dictSet data (toString user_id) current, current)

/-- Embeds the ledger mutation in the body of the `reset_offenses` command:
`data[str(user.id)] = 0` followed by `save_offenses`. -/
def reset_offenses (data : List (String × Nat)) (user_id : Nat) : List (String × Nat) :=
  dictSet data (toString user_id) 0

/-- Result of `k` sequential `add_offense` calls for one user, starting from
the empty ledger. -/
def add_offense_iter (user_id : Nat) : Nat → List (String × Nat)
  | 0 => []
  | k + 1 => (add_offense (add_offense_iter user_id k) user_id).1

/-- Python truthiness of an optional string (`if message_link:` or
`if notes:`): `None` and the empty string are falsy. -/
def truthy (s : Option String) : Bool :=
  match s with
  | none => false
  | some t => !t.isEmpty

/-- Python conditional expression in the summary line for the DM step. -/
def sent_or_not (b : Bool) : String :=
  if b then "sent" else "not delivered"

/-- Python string interpolation of an optional string; `None` prints as "None". -/
def optRepr (s : Option String) : String :=
  match s with
  | some t => t
  | none => "None"

/-- Python `s.strip(cs)` on a character list: removes any of the given
characters from both ends. -/
def stripChars (cs : List Char) (s : List Char) : List Char :=
  ((s.dropWhile (cs.contains ·)).reverse.dropWhile (cs.contains ·)).reverse

/-- Python `s.strip()`: removes whitespace from both ends. -/
def strip_ws (s : List Char) : List Char :=
  ((s.dropWhile Char.isWhitespace).reverse.dropWhile Char.isWhitespace).reverse

/-- Python `s.split("/")`: splits at every slash and keeps empty segments,
so the result always has at least one segment. -/
def split_slash : List Char → List (List Char)
  | [] => [[]]
  | c :: rest =>
    let r := split_slash rest
    if c = '/' then [] :: r
    else
      match r with
      | [] => [[c]]
      | h :: t => (c :: h) :: t

/-- Python `int(s)` on the identifier segments of a message link: succeeds
exactly on nonempty all-digit strings and returns their decimal value (the
sign, whitespace and underscore forms `int` also accepts never yield a
valid Discord id and are not modelled). -/
def parse_int_chars (cs : List Char) : Option Nat :=
  if cs.isEmpty then none
  else if cs.all Char.isDigit then
    some (cs.foldl (fun n c => n * 10 + (c.toNat - '0'.toNat)) 0)
  else none

/-- Python `int(s)` on a string, as used for the modlog channel id. -/
def parse_int (s : String) : Option Nat :=
  parse_int_chars s.toList

/-- Embeds the parsing prefix of `delete_message_from_link`:
`link = message_link.strip().strip("<>")`, split on "/", require at least
three segments (else "invalid link format"), then convert the last two
segments with `int` (a ValueError is caught as "invalid numbers"). -/
def parse_link_ids (message_link : String) : Except String (Nat × Nat) :=
  let link := stripChars ['<', '>'] (strip_ws message_link.toList)
  let parts := split_slash link
  if parts.length < 3 then Except.error "invalid link format"
  else
    match parse_int_chars (parts.getD (parts.length - 2) []),
        parse_int_chars (parts.getD (parts.length - 1) []) with
    | some channel_id, some message_id => Except.ok (channel_id, message_id)
    | _, _ => Except.error "invalid numbers"

/-- Embeds `delete_message_from_link`. After the link is parsed, the channel
fetch, channel-type check, permission checks, message fetch and deletion
(lines 112-130 of bot.py) are one block of platform interaction; the
`platform` oracle returns `none` when the message ends up deleted and
`some reason` for any of the failure returns or caught exceptions
("not a text channel or thread", the missing-permission strings,
"forbidden", "not found", "unexpected error: ..."). The Boolean result
stands for the truthiness of the returned message object. -/
def delete_message_from_link (platform : Nat → Nat → Option String)
    (message_link : String) : Bool × Option String :=
  match parse_link_ids message_link with
  | Except.error e => (false, some e)
  | Except.ok (channel_id, message_id) =>
    match platform channel_id message_id with
    | none => (true, none)
    | some e => (false, some e)

/-- Models Python `round(td.total_seconds()/3600, 1)` scaled to tenths of an
hour: round half to even on the exact rational `secs/360`. The program only
ever builds whole-second durations, for which this agrees with the float
computation on every duration it can construct. -/
def round_tenths_of_hours (secs : Nat) : Nat :=
  let q := secs / 360
  let r := secs % 360
  if r < 180 then q else if 180 < r then q + 1 else if q % 2 = 0 then q else q + 1

/-- Renders the rounded tenths-of-hours value the way a Python float with one
decimal place prints, e.g. 25 prints as "2.5" and 30 as "3.0". -/
def tenths_repr (t : Nat) : String :=
  toString (t / 10) ++ "." ++ toString (t % 10)

/-- Python `"\n".join(lines)`. -/
def join_lines : List String → String
  | [] => ""
  | [a] => a
  | a :: rest => a ++ "\n" ++ join_lines rest

theorem join_lines_cons_head (a : String) (l : List String) :
    ∃ rest, join_lines (a :: l) = a ++ rest := by
  cases l with
  | nil => exact ⟨"", by simp [join_lines]⟩
  | cons b bs => exact ⟨"\n" ++ join_lines (b :: bs), by simp [join_lines, String.append_assoc]⟩

/-- Embeds `format_rule_notice`: duration in whole minutes when the floored
minute count is below 120, otherwise in hours with one decimal place; a
missing duration produces the warning sentence; the rule line always
appears; the note line appears only when `notes` is truthy; a closing
sentence ends the text; lines are joined with a newline. Durations are in
seconds. -/
def format_rule_notice (rule : String) (notes : Option String) (td : Option Nat) : String :=
  let base : List String :=
    match td with
    | some secs =>
      let minutes := secs / 60
      let pretty :=
        if minutes < 120 then toString minutes ++ " minutes"
        else tenths_repr (round_tenths_of_hours secs) ++ " hours"
      ["You were punished for **" ++ pretty ++ "** due to a rule violation."]
    | none => ["You received a **warning** for a rule violation."]
  let base := base ++ ["**Violated rule:** " ++ rule]
  let base := if truthy notes then base ++ ["**Moderator note:** " ++ optRepr notes] else base
  let base := base ++ ["If you believe this was a mistake, you may reply here."]
  join_lines base

/-- Embeds `send_modlog`. The configured channel id is the raw environment
string (absent or empty is falsy and returns early); `int()` failure
returns early; a guild without that channel returns early; only then is the
embed sent, and a failure of that send (`post = Except.error e`) propagates
to the caller uncaught. -/
def send_modlog (modlog_channel_id : Option String) (get_channel : Nat → Bool)
    (post : Except String Unit) : Except String Unit :=
  match modlog_channel_id with
  | none => Except.ok ()
  | some s =>
    if s = "" then Except.ok ()
    else
      match parse_int s with
      | none => Except.ok ()
      | some channel_id =>
        if get_channel channel_id then post else Except.ok ()

/-- Embeds the escalation conditional in `strike` (lines 222-233): the
punishment label and the timeout duration in seconds chosen from the
post-increment offense count. -/
def decide_punishment (offense : Nat) : String × Option Nat :=
  if offense = 1 then ("Warning", none)
  else if offense = 2 then ("Timeout (10m)", some 600)
  else if offense = 3 then ("Timeout (1h)", some 3600)
  else ("Ban", none)

/-- Python truthiness of the `td` timedelta in `elif td and offense in (2, 3)`:
a missing duration is falsy and a zero duration would be falsy. -/
def td_truthy (td : Option Nat) : Bool :=
  match td with
  | none => false
  | some v => v != 0

/-- Embeds the punishment application block of `strike` (lines 239-261):
a first offense is skipped, offenses two and three attempt the timeout
(with the version-compatibility fallback collapsed into one oracle
outcome), anything else attempts the ban; every exception is caught and
stored as the error string. The result is (timed out, banned, error). -/
def apply_punishment (timeout_result ban_result : Option String) (offense : Nat)
    (td : Option Nat) : Bool × Bool × Option String :=
  if td.isNone && offense == 1 then (false, false, none)
  else if td_truthy td && (offense == 2 || offense == 3) then
    match timeout_result with
    | none => (true, false, none)
    | some e => (false, false, some e)
  else
    match ban_result with
    | none => (false, true, none)
    | some e => (false, false, some e)

/-- Inputs of one `/strike` invocation: the authorization facts established
by Discord, the command arguments, and oracles for the outcome of each
platform interaction. `hierarchy_blocks` is the truth value of
`user.top_role >= me.top_role or user == interaction.guild.owner`;
`timeout_result`/`ban_result` are `none` on success and the stringified
exception otherwise; `dm_delivered` is the Boolean returned by `dm_user`,
which swallows every exception. -/
structure StrikeEnv where
  actor_can_moderate : Bool
  hierarchy_blocks : Bool
  user_id : Nat
  rule : String
  notes : Option String
  message_link : Option String
  platform_delete : Nat → Nat → Option String
  timeout_result : Option String
  ban_result : Option String
  dm_delivered : Bool

/-- Observable results of one `/strike` run: the local variables of the
handler and the summary lines sent back to the moderator. -/
structure StrikeOutcome where
  offense : Nat
  punishment : String
  td : Option Nat
  deleted : Bool
  delete_err : Option String
  timed_out : Bool
  banned : Bool
  error : Option String
  dm_ok : Bool
  dm_text : String
  summary : List String

/-- Embeds the summary construction in `strike` (lines 268-285): the three
unconditional lines, the deletion line when a link was given, the timeout
and ban confirmations, and the error line guarded by Python truthiness
(`if error:`), so a recorded error whose string is empty produces no
line. -/
def build_summary (link_given : Bool) (offense : Nat) (punishment : String)
    (dm_ok deleted : Bool) (delete_err : Option String) (timed_out banned : Bool)
    (error : Option String) : List String :=
  [s!"• Offense count: **{offense}**",
   s!"• Penalty: **{punishment}**",
   s!"• DM to user: {sent_or_not dm_ok}"]
  ++ (if link_given then
        [if deleted then "• Offending message: **deleted**"
         else s!"• Offending message: failed ({optRepr delete_err})"]
      else [])
  ++ (if timed_out then ["• Timeout applied"] else [])
  ++ (if banned then ["• User has been **banned**"] else [])
  ++ (if truthy error then [s!"• Error: {optRepr error}"] else [])

/-- Embeds the body of `strike` past the two fatal authorization checks:
optional message deletion, ledger increment, escalation decision,
punishment application, user notification, and the itemized summary. -/
def strike_authorized (env : StrikeEnv) (data : List (String × Nat)) :
    List (String × Nat) × StrikeOutcome :=
  let link_given := truthy env.message_link
  let del :=
    if link_given then delete_message_from_link env.platform_delete (env.message_link.getD "")
    else (false, none)
  let result := add_offense data env.user_id
  let offense := result.2
  let pun := decide_punishment offense
  let punishment := pun.1
  let td := pun.2
  let app := apply_punishment env.timeout_result env.ban_result offense td
  let timed_out := app.1
  let banned := app.2.1
  let error := app.2.2
  let dm_text := format_rule_notice env.rule env.notes td
  let dm_ok := env.dm_delivered
  let summary :=
    build_summary link_given offense punishment dm_ok del.1 del.2 timed_out banned error
  (result.1,
    { offense, punishment, td, deleted := del.1, delete_err := del.2,
      timed_out, banned, error, dm_ok, dm_text, summary })

/-- Embeds the `strike` command handler (lines 193-308): the authorization
and hierarchy checks are fatal and reject the whole request; otherwise the
orchestration body runs. The final audit-log emission happens after the
summary followup and is modelled separately by `send_modlog`. The ledger
file is taken as already loaded into `data` and the updated dict is
returned. -/
def strike (env : StrikeEnv) (data : List (String × Nat)) :
    Except String (List (String × Nat) × StrikeOutcome) :=
  if !env.actor_can_moderate then Except.error "You need **Timeout Members**."
  else if env.hierarchy_blocks then Except.error "Cannot moderate that user (role hierarchy)."
  else Except.ok (strike_authorized env data)

/-- Inputs of one use of the Delete and Timeout (10m) context menu, in the
same style as `StrikeEnv`. `target_is_member` is the truth value of
`isinstance(message.author, discord.Member)`; `delete_ok` is whether the
message deletion succeeded (every exception there is caught). -/
structure QuickEnv where
  actor_can_moderate : Bool
  me_manage_messages : Bool
  me_moderate_members : Bool
  target_is_member : Bool
  hierarchy_blocks : Bool
  delete_ok : Bool
  timeout_result : Option String
  dm_delivered : Bool

/-- Observable results of one quick delete-and-timeout run. -/
structure QuickOutcome where
  deleted : Bool
  td : Nat
  rule : String
  timed_out : Bool
  timeout_err : Option String
  dm_ok : Bool
  dm_text : String
  lines : List String

/-- Python conditional expression in the message line of the quick variant. -/
def deleted_or_not (b : Bool) : String :=
  if b then "deleted" else "not deleted"

/-- Python conditional expression in the timeout line of the quick variant. -/
def timeout_status (b : Bool) (err : Option String) : String :=
  if b then "applied" else s!"failed ({optRepr err})"

/-- Embeds the body of the Delete and Timeout (10m) context-menu handler
(lines 386-425) past its four fatal authorization checks: message deletion
(failures swallowed), a fixed 10-minute timeout with the fixed rule
citation, the user DM, and the three summary lines. The handler never
reads or writes the offense ledger, so the dict passes through unchanged. -/
def quick_authorized (env : QuickEnv) (data : List (String × Nat)) :
    List (String × Nat) × QuickOutcome :=
  let deleted := env.delete_ok
  let td := 600
  let rule := "Rule violation"
  let app :=
    match env.timeout_result with
    | none => (true, (none : Option String))
    | some e => (false, some e)
  let timed_out := app.1
  let timeout_err := app.2
  let dm_ok := env.dm_delivered
  let dm_text := format_rule_notice rule none (some td)
  let lines :=
    [s!"• Message: {deleted_or_not deleted}",
     s!"• Timeout: {timeout_status timed_out timeout_err}",
     s!"• DM to user: {sent_or_not dm_ok}"]
  (data, { deleted, td, rule, timed_out, timeout_err, dm_ok, dm_text, lines })

/-- Embeds the dispatch of the quick handler: the four fatal checks, then
the body. -/
def quick_delete_timeout (env : QuickEnv) (data : List (String × Nat)) :
    Except String (List (String × Nat) × QuickOutcome) :=
  if !env.actor_can_moderate then Except.error "You need **Timeout Members**."
  else if !(env.me_manage_messages && env.me_moderate_members) then
    Except.error "Missing Manage Messages/Timeout Members."
  else if !env.target_is_member then Except.error "User not found."
  else if env.hierarchy_blocks then Except.error "Cannot moderate (role hierarchy)."
  else Except.ok (quick_authorized env data)

/-! Helper lemmas shared by the claim theorems. -/

theorem decide_punishment_of_ge4 (n : Nat) (h : 4 ≤ n) :
    decide_punishment n = ("Ban", none) := by
  have h1 : n ≠ 1 := by omega
  have h2 : n ≠ 2 := by omega
  have h3 : n ≠ 3 := by omega
  simp [decide_punishment, h1, h2, h3]

theorem apply_decide_timeout (tr br : Option String) (n : Nat) (h : n = 2 ∨ n = 3) :
    (apply_punishment tr br n (decide_punishment n).2).1 = tr.isNone := by
  rcases h with h | h <;> subst h <;> cases tr <;> rfl

theorem apply_decide_ban (tr br : Option String) (n : Nat) (h : 4 ≤ n) :
    (apply_punishment tr br n (decide_punishment n).2).2.1 = br.isNone := by
  have h1 : n ≠ 1 := by omega
  rw [decide_punishment_of_ge4 n h]
  cases br <;> simp [apply_punishment, td_truthy, h1]

theorem format_none_head (rule : String) (notes : Option String) :
    ∃ rest, format_rule_notice rule notes none =
      "You received a **warning** for a rule violation." ++ rest := by
  unfold format_rule_notice
  cases ht : truthy notes <;> simp only [ht, Bool.false_eq_true, if_true, if_false] <;>
    exact join_lines_cons_head _ _

theorem format_minutes_head (rule : String) (notes : Option String) (secs : Nat)
    (h : secs / 60 < 120) :
    ∃ rest, format_rule_notice rule notes (some secs) =
      "You were punished for **" ++ toString (secs / 60) ++
        " minutes** due to a rule violation." ++ rest := by
  unfold format_rule_notice
  simp only [if_pos h,
    show ("You were punished for **" ++ toString (secs / 60) ++
        " minutes** due to a rule violation." : String) =
      "You were punished for **" ++ (toString (secs / 60) ++ " minutes") ++
        "** due to a rule violation." from by simp [String.append_assoc]]
  cases ht : truthy notes <;> simp only [ht, Bool.false_eq_true, if_true, if_false] <;>
    exact join_lines_cons_head _ _

theorem format_hours_head (rule : String) (notes : Option String) (secs : Nat)
    (h : 120 ≤ secs / 60) :
    ∃ rest, format_rule_notice rule notes (some secs) =
      "You were punished for **" ++ tenths_repr (round_tenths_of_hours secs) ++
        " hours** due to a rule violation." ++ rest := by
  have hlt : ¬ secs / 60 < 120 := by omega
  unfold format_rule_notice
  simp only [if_neg hlt,
    show ("You were punished for **" ++ tenths_repr (round_tenths_of_hours secs) ++
        " hours** due to a rule violation." : String) =
      "You were punished for **" ++ (tenths_repr (round_tenths_of_hours secs) ++ " hours") ++
        "** due to a rule violation." from by simp [String.append_assoc]]
  cases ht : truthy notes <;> simp only [ht, Bool.false_eq_true, if_true, if_false] <;>
    exact join_lines_cons_head _ _

theorem strike_eq_ok (env : StrikeEnv) (data : List (String × Nat))
    (hmod : env.actor_can_moderate = true) (hhier : env.hierarchy_blocks = false) :
    strike env data = Except.ok (strike_authorized env data) := by
  simp [strike, hmod, hhier]

theorem strike_authorized_offense (env : StrikeEnv) (data : List (String × Nat)) :
    (strike_authorized env data).2.offense = get_offenses data env.user_id + 1 := rfl

theorem strike_authorized_ledger (env : StrikeEnv) (data : List (String × Nat)) :
    get_offenses (strike_authorized env data).1 env.user_id =
      (strike_authorized env data).2.offense := by
  show get_offenses (add_offense data env.user_id).1 env.user_id = (add_offense data env.user_id).2
  simp [add_offense, get_offenses, dictGetD_dictSet_self]

theorem strike_authorized_summary (env : StrikeEnv) (data : List (String × Nat)) :
    (strike_authorized env data).2.summary =
      build_summary (truthy env.message_link) (strike_authorized env data).2.offense
        (strike_authorized env data).2.punishment (strike_authorized env data).2.dm_ok
        (strike_authorized env data).2.deleted (strike_authorized env data).2.delete_err
        (strike_authorized env data).2.timed_out (strike_authorized env data).2.banned
        (strike_authorized env data).2.error := rfl

theorem strike_authorized_punishment (env : StrikeEnv) (data : List (String × Nat)) :
    ((strike_authorized env data).2.punishment, (strike_authorized env data).2.td) =
      decide_punishment ((strike_authorized env data).2.offense) := rfl

theorem strike_authorized_applied (env : StrikeEnv) (data : List (String × Nat)) :
    ((strike_authorized env data).2.timed_out, (strike_authorized env data).2.banned,
        (strike_authorized env data).2.error) =
      apply_punishment env.timeout_result env.ban_result
        ((strike_authorized env data).2.offense) ((strike_authorized env data).2.td) := rfl

theorem strike_authorized_link (env : StrikeEnv) (data : List (String × Nat))
    (h : truthy env.message_link = true) :
    ((strike_authorized env data).2.deleted, (strike_authorized env data).2.delete_err) =
      delete_message_from_link env.platform_delete (env.message_link.getD "") := by
  simp only [strike_authorized, h, if_true]

theorem strike_authorized_dm_text (env : StrikeEnv) (data : List (String × Nat)) :
    (strike_authorized env data).2.dm_text =
      format_rule_notice env.rule env.notes (strike_authorized env data).2.td := rfl

theorem strike_authorized_dm_ok (env : StrikeEnv) (data : List (String × Nat)) :
    (strike_authorized env data).2.dm_ok = env.dm_delivered := rfl

theorem parse_link_ids_error_reason (l e : String) (h : parse_link_ids l = Except.error e) :
    e = "invalid link format" ∨ e = "invalid numbers" := by
  simp only [parse_link_ids] at h
  split at h
  · exact Or.inl (by injection h with h; exact h.symm)
  · split at h
    · exact absurd h (by simp)
    · exact Or.inr (by injection h with h; exact h.symm)

theorem build_summary_mem_offense (lg : Bool) (o : Nat) (p : String) (dmok del : Bool)
    (derr : Option String) (t b : Bool) (err : Option String) :
    s!"• Offense count: **{o}**" ∈ build_summary lg o p dmok del derr t b err := by
  simp [build_summary]

theorem build_summary_mem_penalty (lg : Bool) (o : Nat) (p : String) (dmok del : Bool)
    (derr : Option String) (t b : Bool) (err : Option String) :
    s!"• Penalty: **{p}**" ∈ build_summary lg o p dmok del derr t b err := by
  simp [build_summary]

theorem build_summary_mem_dm (lg : Bool) (o : Nat) (p : String) (dmok del : Bool)
    (derr : Option String) (t b : Bool) (err : Option String) :
    s!"• DM to user: {sent_or_not dmok}" ∈ build_summary lg o p dmok del derr t b err := by
  simp [build_summary]

theorem build_summary_mem_deletion (o : Nat) (p : String) (dmok del : Bool)
    (derr : Option String) (t b : Bool) (err : Option String) :
    (if del then "• Offending message: **deleted**"
     else s!"• Offending message: failed ({optRepr derr})") ∈
      build_summary true o p dmok del derr t b err := by
  simp [build_summary]

theorem build_summary_mem_error (lg : Bool) (o : Nat) (p : String) (dmok del : Bool)
    (derr : Option String) (t b : Bool) (e : String) (he : e.isEmpty = false) :
    s!"• Error: {e}" ∈ build_summary lg o p dmok del derr t b (some e) := by
  simp [build_summary, truthy, he, optRepr]

/-! Claim theorems. -/

/-- C2: the punishment tier is a pure, total function of the post-increment
offense count: count 1 maps to a Warning without duration, count 2 to a
10-minute timeout, count 3 to a 1-hour timeout, and every count of at
least 4 (in particular 4 and 100) maps to Ban, so no positive count is
left unmapped. -/
theorem decide_punishment_total_tiers :
    decide_punishment 1 = ("Warning", none) ∧
    decide_punishment 2 = ("Timeout (10m)", some 600) ∧
    decide_punishment 3 = ("Timeout (1h)", some 3600) ∧
    (∀ n : Nat, 4 ≤ n → decide_punishment n = ("Ban", none)) ∧
    decide_punishment 4 = ("Ban", none) ∧
    decide_punishment 100 = ("Ban", none) :=
  ⟨rfl, rfl, rfl, decide_punishment_of_ge4, rfl, rfl⟩

/-- C2 witness: the universally quantified Ban clause applied at count 7. -/
theorem decide_punishment_total_tiers_witness :
    decide_punishment 7 = ("Ban", none) :=
  decide_punishment_total_tiers.2.2.2.1 7 (by decide)

/-- C5: the ledger increment reads the current count with default 0, adds 1,
persists it and returns the new value, so k sequential increments starting
from the empty ledger leave the stored count at k. -/
theorem add_offense_increment_monotone :
    (∀ (data : List (String × Nat)) (user_id : Nat),
      (add_offense data user_id).2 = get_offenses data user_id + 1) ∧
    (∀ (data : List (String × Nat)) (user_id : Nat),
      get_offenses (add_offense data user_id).1 user_id = (add_offense data user_id).2) ∧
    (∀ (user_id k : Nat), get_offenses (add_offense_iter user_id k) user_id = k) := by
  refine ⟨fun data user_id => rfl, fun data user_id => ?_, fun user_id k => ?_⟩
  · simp [add_offense, get_offenses, dictGetD_dictSet_self]
  · induction k with
    | zero => rfl
    | succ k ih =>
      simp only [add_offense_iter, add_offense, get_offenses, dictGetD_dictSet_self]
      simp only [get_offenses] at ih
      omega

/-- C6: the reset operation stores the value 0 for the user unconditionally
(the record is written, not deleted), is idempotent on the ledger state,
and a read after one or two consecutive resets returns 0. -/
theorem reset_offenses_idempotent_zero (data : List (String × Nat)) (user_id : Nat) :
    get_offenses (reset_offenses data user_id) user_id = 0 ∧
    get_offenses (reset_offenses (reset_offenses data user_id) user_id) user_id = 0 ∧
    reset_offenses (reset_offenses data user_id) user_id = reset_offenses data user_id ∧
    (reset_offenses data user_id).lookup (toString user_id) = some 0 := by
  refine ⟨?_, ?_, ?_, ?_⟩ <;>
    simp [reset_offenses, get_offenses, dictGetD_dictSet_self, dictSet_dictSet_self,
      lookup_dictSet_self]

/-- C4 counterexample: a read against corrupted backing storage does not
return a count at all; the JSON decoding error propagates, so corrupted
storage is not treated as an empty ledger. -/
theorem get_offenses_corrupt_storage_raises :
    get_offenses_file Storage.corrupt 42 = Except.error "json.decoder.JSONDecodeError" :=
  rfl

/-- C4 amended: the ledger read returns 0 for any user with no stored
record, and missing backing storage is initialized to the empty ledger and
read as 0; corrupted backing storage, however, raises instead of being
treated as empty. -/
theorem get_offenses_missing_ok_corrupt_raises :
    (∀ user_id : Nat, get_offenses_file Storage.absent user_id = Except.ok 0) ∧
    (∀ (data : List (String × Nat)) (user_id : Nat),
      data.lookup (toString user_id) = none →
      get_offenses_file (Storage.stored data) user_id = Except.ok 0) ∧
    (∀ user_id : Nat,
      get_offenses_file Storage.corrupt user_id =
        Except.error "json.decoder.JSONDecodeError") := by
  refine ⟨fun user_id => rfl, fun data user_id h => ?_, fun user_id => rfl⟩
  simp [get_offenses_file, load_offenses, Except.map, dictGetD, h]

/-- C4 witness: the amended read clauses applied to a ledger that lacks the
queried user. -/
theorem get_offenses_missing_ok_corrupt_raises_witness :
    get_offenses_file (Storage.stored [("7", 3)]) 42 = Except.ok 0 :=
  get_offenses_missing_ok_corrupt_raises.2.1 [("7", 3)] 42 (by decide)

/-- C7: the notice formatter always returns a string (it is a total function,
with an explicit output even for an empty rule and absent note); a present
duration whose floored minute count is below 120 renders in whole minutes,
one at or above 120 renders in hours with one decimal place (90 minutes
gives "90 minutes", 150 minutes gives "2.5 hours"), and an absent duration
yields the non-timed warning wording. -/
theorem format_rule_notice_total_rendering :
    (∀ (rule : String) (notes : Option String) (secs : Nat), secs / 60 < 120 →
      ∃ rest, format_rule_notice rule notes (some secs) =
        "You were punished for **" ++ toString (secs / 60) ++
          " minutes** due to a rule violation." ++ rest) ∧
    (∀ (rule : String) (notes : Option String) (secs : Nat), 120 ≤ secs / 60 →
      ∃ rest, format_rule_notice rule notes (some secs) =
        "You were punished for **" ++ tenths_repr (round_tenths_of_hours secs) ++
          " hours** due to a rule violation." ++ rest) ∧
    (∀ (rule : String) (notes : Option String),
      ∃ rest, format_rule_notice rule notes none =
        "You received a **warning** for a rule violation." ++ rest) ∧
    format_rule_notice "Spam" none (some 5400) =
      "You were punished for **90 minutes** due to a rule violation.\n**Violated rule:** Spam\nIf you believe this was a mistake, you may reply here." ∧
    format_rule_notice "Spam" none (some 9000) =
      "You were punished for **2.5 hours** due to a rule violation.\n**Violated rule:** Spam\nIf you believe this was a mistake, you may reply here." ∧
    format_rule_notice "" none none =
      "You received a **warning** for a rule violation.\n**Violated rule:** \nIf you believe this was a mistake, you may reply here." :=
  ⟨format_minutes_head, format_hours_head, format_none_head,
    by decide, by decide, by decide⟩

/-- C7 witness: the three quantified rendering clauses applied at the
durations named by the specification, 90 minutes and 150 minutes. -/
theorem format_rule_notice_total_rendering_witness :
    (∃ rest, format_rule_notice "Spam" none (some 5400) =
      "You were punished for **" ++ toString (5400 / 60) ++
        " minutes** due to a rule violation." ++ rest) ∧
    (∃ rest, format_rule_notice "Spam" none (some 9000) =
      "You were punished for **" ++ tenths_repr (round_tenths_of_hours 9000) ++
        " hours** due to a rule violation." ++ rest) ∧
    (∃ rest, format_rule_notice "Spam" none none =
      "You received a **warning** for a rule violation." ++ rest) :=
  ⟨format_rule_notice_total_rendering.1 "Spam" none 5400 (by decide),
   format_rule_notice_total_rendering.2.1 "Spam" none 9000 (by decide),
   format_rule_notice_total_rendering.2.2.1 "Spam" none⟩

/-- C8: when its four authorization checks pass, the quick delete-and-timeout
variant returns the offense ledger unchanged (it never reads or writes any
count), applies a fixed 10-minute (600 second) timeout whose application
status only reflects the platform outcome, cites the fixed rule
"Rule violation", and notifies the user with the corresponding 10-minute
notice, all independent of the ledger contents. -/
theorem quick_delete_timeout_fixed_frame (env : QuickEnv) (data : List (String × Nat))
    (h1 : env.actor_can_moderate = true) (h2 : env.me_manage_messages = true)
    (h3 : env.me_moderate_members = true) (h4 : env.target_is_member = true)
    (h5 : env.hierarchy_blocks = false) :
    ∃ o : QuickOutcome, quick_delete_timeout env data = Except.ok (data, o) ∧
      o.td = 600 ∧ o.rule = "Rule violation" ∧
      o.dm_text = format_rule_notice "Rule violation" none (some 600) ∧
      o.timed_out = env.timeout_result.isNone := by
  refine ⟨(quick_authorized env data).2, ?_, rfl, rfl, rfl, ?_⟩
  · simp only [quick_delete_timeout, h1, h2, h3, h4, h5, Bool.not_true, Bool.false_eq_true,
      if_false, Bool.and_self, Bool.not_false, if_true]
    rfl
  · cases henv : env.timeout_result <;> simp [quick_authorized, henv]

/-- C8 witness: a fully authorized quick action over a nonempty ledger, with
a failing platform timeout, still leaves the ledger untouched and uses the
fixed tier and citation. -/
theorem quick_delete_timeout_fixed_frame_witness :
    ∃ o : QuickOutcome,
      quick_delete_timeout
        { actor_can_moderate := true, me_manage_messages := true,
          me_moderate_members := true, target_is_member := true,
          hierarchy_blocks := false, delete_ok := false,
          timeout_result := some "HTTP 500", dm_delivered := false }
        [("42", 3)] = Except.ok ([("42", 3)], o) ∧
      o.td = 600 ∧ o.rule = "Rule violation" ∧
      o.dm_text = format_rule_notice "Rule violation" none (some 600) ∧
      o.timed_out = (some "HTTP 500" : Option String).isNone :=
  quick_delete_timeout_fixed_frame _ [("42", 3)] rfl rfl rfl rfl rfl

/-- C9 counterexample: with a validly configured and existing log channel, a
failure while posting the audit record is not swallowed; `send_modlog`
propagates the error to its caller, refuting the claim that every
audit-log failure is silent. -/
theorem send_modlog_post_failure_propagates :
    send_modlog (some "5") (fun _ => true) (Except.error "403 Forbidden") =
      Except.error "403 Forbidden" := by
  simp [send_modlog, show ¬ ("5" : String) = "" from by decide,
    show parse_int "5" = some 5 from rfl]

/-- C9 amended: audit-log emission is silently skipped when no log
destination is configured, when the configured destination is empty or not
numeric, and when the guild has no channel with the configured id; a
failure of the posting call itself, however, propagates out of
`send_modlog` (after the moderator has already received the summary)
rather than being swallowed. -/
theorem send_modlog_config_failures_silent :
    (∀ (g : Nat → Bool) (p : Except String Unit), send_modlog none g p = Except.ok ()) ∧
    (∀ (g : Nat → Bool) (p : Except String Unit), send_modlog (some "") g p = Except.ok ()) ∧
    (∀ (g : Nat → Bool) (p : Except String Unit),
      send_modlog (some "not a number") g p = Except.ok ()) ∧
    (∀ (s : String) (cid : Nat) (g : Nat → Bool) (p : Except String Unit),
      parse_int s = some cid → g cid = false → send_modlog (some s) g p = Except.ok ()) := by
  refine ⟨fun g p => rfl, fun g p => ?_, fun g p => ?_, fun s cid g p hs hg => ?_⟩
  · simp [send_modlog]
  · simp [send_modlog, show ¬ ("not a number" : String) = "" from by decide,
      show parse_int "not a number" = none from rfl]
  · have hse : ¬ s = "" := by
      intro h
      rw [h, show parse_int "" = none from rfl] at hs
      exact Option.noConfusion hs
    simp [send_modlog, hse, hs, hg]

/-- C9 witness: the not-found clause applied to a guild with no channels at
all, while the posting oracle would have failed. -/
theorem send_modlog_config_failures_silent_witness :
    send_modlog (some "5") (fun _ => false) (Except.error "403 Forbidden") = Except.ok () :=
  send_modlog_config_failures_silent.2.2.2 "5" 5 (fun _ => false)
    (Except.error "403 Forbidden") rfl rfl

/-- C1 counterexample: an authorized strike whose timeout application fails
with an exception that stringifies to the empty string (as a bare
`TimeoutError` does) records `error = some ""` and no timeout, yet the
summary carries neither an error line nor a timeout line, so it does not
state the outcome of the punishment sub-step. -/
theorem strike_empty_error_summary_has_no_error_line :
    strike
      { actor_can_moderate := true, hierarchy_blocks := false, user_id := 42,
        rule := "Spam", notes := none, message_link := none,
        platform_delete := fun _ _ => none, timeout_result := some "",
        ban_result := none, dm_delivered := true }
      [("42", 1)] =
    Except.ok ([("42", 2)],
      { offense := 2, punishment := "Timeout (10m)", td := some 600,
        deleted := false, delete_err := none, timed_out := false, banned := false,
        error := some "", dm_ok := true,
        dm_text := "You were punished for **10 minutes** due to a rule violation.\n**Violated rule:** Spam\nIf you believe this was a mistake, you may reply here.",
        summary := ["• Offense count: **2**", "• Penalty: **Timeout (10m)**",
          "• DM to user: sent"] }) := rfl

/-- C1 amended: for every strike request that passes the authorization
check, the later steps are fault-isolated: whatever the outcomes of
deletion, punishment application and notification, the run completes, the
ledger is incremented, the notification is attempted with the oracle
outcome recorded, the punishment application status reflects only the
platform oracle for the decided tier, and the moderator summary contains
the offense-count, penalty and DM lines, the deletion line whenever a link
was given, and the error line whenever a nonempty error string was
recorded (an error whose string is empty is skipped by the Python
truthiness guard and leaves no line). -/
theorem strike_partial_failure_summary (env : StrikeEnv) (data : List (String × Nat))
    (hmod : env.actor_can_moderate = true) (hhier : env.hierarchy_blocks = false) :
    ∃ data' o, strike env data = Except.ok (data', o) ∧
      o.offense = get_offenses data env.user_id + 1 ∧
      get_offenses data' env.user_id = o.offense ∧
      o.dm_ok = env.dm_delivered ∧
      ((o.offense = 2 ∨ o.offense = 3) → o.timed_out = env.timeout_result.isNone) ∧
      (4 ≤ o.offense → o.banned = env.ban_result.isNone) ∧
      s!"• Offense count: **{o.offense}**" ∈ o.summary ∧
      s!"• Penalty: **{o.punishment}**" ∈ o.summary ∧
      s!"• DM to user: {sent_or_not o.dm_ok}" ∈ o.summary ∧
      (truthy env.message_link = true →
        (if o.deleted then "• Offending message: **deleted**"
         else s!"• Offending message: failed ({optRepr o.delete_err})") ∈ o.summary) ∧
      (∀ e, o.error = some e → e.isEmpty = false → s!"• Error: {e}" ∈ o.summary) := by
  have hptd : (strike_authorized env data).2.td =
      (decide_punishment ((strike_authorized env data).2.offense)).2 :=
    congrArg Prod.snd (strike_authorized_punishment env data)
  refine ⟨(strike_authorized env data).1, (strike_authorized env data).2, ?_,
    strike_authorized_offense env data, strike_authorized_ledger env data,
    strike_authorized_dm_ok env data, ?_, ?_, ?_, ?_, ?_, ?_, ?_⟩
  · rw [strike_eq_ok env data hmod hhier]
  · intro h23
    have ht1 : (strike_authorized env data).2.timed_out =
        (apply_punishment env.timeout_result env.ban_result
          ((strike_authorized env data).2.offense) ((strike_authorized env data).2.td)).1 :=
      congrArg (fun p => p.1) (strike_authorized_applied env data)
    rw [hptd] at ht1
    rw [ht1]
    exact apply_decide_timeout _ _ _ h23
  · intro h4
    have hb1 : (strike_authorized env data).2.banned =
        (apply_punishment env.timeout_result env.ban_result
          ((strike_authorized env data).2.offense) ((strike_authorized env data).2.td)).2.1 :=
      congrArg (fun p => p.2.1) (strike_authorized_applied env data)
    rw [hptd] at hb1
    rw [hb1]
    exact apply_decide_ban _ _ _ h4
  · rw [strike_authorized_summary env data]; exact build_summary_mem_offense _ _ _ _ _ _ _ _ _
  · rw [strike_authorized_summary env data]; exact build_summary_mem_penalty _ _ _ _ _ _ _ _ _
  · rw [strike_authorized_summary env data]; exact build_summary_mem_dm _ _ _ _ _ _ _ _ _
  · intro htl
    rw [strike_authorized_summary env data, htl]
    exact build_summary_mem_deletion _ _ _ _ _ _ _ _
  · intro e he hne
    rw [strike_authorized_summary env data, he]
    exact build_summary_mem_error _ _ _ _ _ _ _ _ _ hne

/-- C1 witness: an authorized strike in which deletion (malformed link),
punishment application (failing timeout oracle) and notification (DM not
delivered) all fail, yet the run completes with the full summary. -/
theorem strike_partial_failure_summary_witness :
    ∃ data' o, strike
        { actor_can_moderate := true, hierarchy_blocks := false, user_id := 42,
          rule := "Spam", notes := none, message_link := some "abc",
          platform_delete := fun _ _ => none, timeout_result := some "HTTP 500",
          ban_result := none, dm_delivered := false }
        [("42", 1)] = Except.ok (data', o) ∧
      o.offense = get_offenses [("42", 1)] 42 + 1 ∧
      get_offenses data' 42 = o.offense ∧
      o.dm_ok = false ∧
      ((o.offense = 2 ∨ o.offense = 3) → o.timed_out = (some "HTTP 500" : Option String).isNone) ∧
      (4 ≤ o.offense → o.banned = (none : Option String).isNone) ∧
      s!"• Offense count: **{o.offense}**" ∈ o.summary ∧
      s!"• Penalty: **{o.punishment}**" ∈ o.summary ∧
      s!"• DM to user: {sent_or_not o.dm_ok}" ∈ o.summary ∧
      (truthy (some "abc") = true →
        (if o.deleted then "• Offending message: **deleted**"
         else s!"• Offending message: failed ({optRepr o.delete_err})") ∈ o.summary) ∧
      (∀ e, o.error = some e → e.isEmpty = false → s!"• Error: {e}" ∈ o.summary) :=
  strike_partial_failure_summary _ [("42", 1)] rfl rfl

/-- C3: a malformed message link (too few path segments or non-numeric
identifier segments) only downgrades the deletion step to a failure with
one of the two parse reason strings; the request itself goes on: the
ledger is still incremented, the punishment for the new count is still
decided and applied through the platform oracles, the user notification is
still attempted, and the summary reports the failed deletion. -/
theorem strike_malformed_link_nonfatal (env : StrikeEnv) (data : List (String × Nat))
    (l e : String)
    (hmod : env.actor_can_moderate = true) (hhier : env.hierarchy_blocks = false)
    (hlink : env.message_link = some l) (hne : l.isEmpty = false)
    (hparse : parse_link_ids l = Except.error e) :
    ∃ data' o, strike env data = Except.ok (data', o) ∧
      o.deleted = false ∧ o.delete_err = some e ∧
      (e = "invalid link format" ∨ e = "invalid numbers") ∧
      o.offense = get_offenses data env.user_id + 1 ∧
      get_offenses data' env.user_id = o.offense ∧
      (o.punishment, o.td) = decide_punishment o.offense ∧
      (o.timed_out, o.banned, o.error) =
        apply_punishment env.timeout_result env.ban_result o.offense o.td ∧
      o.dm_ok = env.dm_delivered ∧
      o.dm_text = format_rule_notice env.rule env.notes o.td ∧
      s!"• Offending message: failed ({e})" ∈ o.summary := by
  have ht : truthy env.message_link = true := by simp [truthy, hlink, hne]
  have hdel := strike_authorized_link env data ht
  rw [hlink] at hdel
  simp only [Option.getD_some] at hdel
  rw [delete_message_from_link, hparse] at hdel
  have hd1 : (strike_authorized env data).2.deleted = false := congrArg Prod.fst hdel
  have hd2 : (strike_authorized env data).2.delete_err = some e := congrArg Prod.snd hdel
  refine ⟨(strike_authorized env data).1, (strike_authorized env data).2, ?_, hd1, hd2,
    parse_link_ids_error_reason l e hparse,
    strike_authorized_offense env data, strike_authorized_ledger env data,
    strike_authorized_punishment env data, strike_authorized_applied env data,
    strike_authorized_dm_ok env data, strike_authorized_dm_text env data, ?_⟩
  · rw [strike_eq_ok env data hmod hhier]
  · rw [strike_authorized_summary env data, ht, hd1, hd2]
    simpa [optRepr] using build_summary_mem_deletion (strike_authorized env data).2.offense
      (strike_authorized env data).2.punishment (strike_authorized env data).2.dm_ok
      false (some e) (strike_authorized env data).2.timed_out
      (strike_authorized env data).2.banned (strike_authorized env data).2.error

/-- C3 witness: an authorized strike with the malformed link "abc" against a
fresh user still increments the ledger, decides the Warning tier and
attempts the notification. -/
theorem strike_malformed_link_nonfatal_witness :
    ∃ data' o, strike
        { actor_can_moderate := true, hierarchy_blocks := false, user_id := 42,
          rule := "Spam", notes := none, message_link := some "abc",
          platform_delete := fun _ _ => none, timeout_result := none,
          ban_result := none, dm_delivered := true }
        [] = Except.ok (data', o) ∧
      o.deleted = false ∧ o.delete_err = some "invalid link format" ∧
      ("invalid link format" = "invalid link format" ∨
        "invalid link format" = "invalid numbers") ∧
      o.offense = get_offenses [] 42 + 1 ∧
      get_offenses data' 42 = o.offense ∧
      (o.punishment, o.td) = decide_punishment o.offense ∧
      (o.timed_out, o.banned, o.error) = apply_punishment none none o.offense o.td ∧
      o.dm_ok = true ∧
      o.dm_text = format_rule_notice "Spam" none o.td ∧
      s!"• Offending message: failed (invalid link format)" ∈ o.summary :=
  strike_malformed_link_nonfatal _ [] "abc" "invalid link format" rfl rfl rfl
    (by decide) rfl

/-- C10: for an authorized strike whose post-increment offense count is at
least 4 the decided tier is Ban with an absent duration, so the notice
sent to the banned user is the absent-duration notice, beginning with the
same warning sentence as a first offense and never mentioning the ban, as
the fully rendered notice for rule "Spam" shows. -/
theorem strike_ban_dm_says_warning (env : StrikeEnv) (data : List (String × Nat))
    (hmod : env.actor_can_moderate = true) (hhier : env.hierarchy_blocks = false)
    (hcount : 4 ≤ get_offenses data env.user_id + 1) :
    ∃ data' o, strike env data = Except.ok (data', o) ∧
      o.punishment = "Ban" ∧ o.td = none ∧
      o.dm_text = format_rule_notice env.rule env.notes none ∧
      (∃ rest, o.dm_text = "You received a **warning** for a rule violation." ++ rest) ∧
      format_rule_notice "Spam" none none =
        "You received a **warning** for a rule violation.\n**Violated rule:** Spam\nIf you believe this was a mistake, you may reply here." := by
  have hdp : decide_punishment ((strike_authorized env data).2.offense) = ("Ban", none) := by
    rw [strike_authorized_offense env data]
    exact decide_punishment_of_ge4 _ hcount
  have hp := strike_authorized_punishment env data
  rw [hdp] at hp
  have hp1 : (strike_authorized env data).2.punishment = "Ban" := congrArg Prod.fst hp
  have hp2 : (strike_authorized env data).2.td = none := congrArg Prod.snd hp
  have hdm : (strike_authorized env data).2.dm_text =
      format_rule_notice env.rule env.notes none := by
    rw [strike_authorized_dm_text env data, hp2]
  refine ⟨(strike_authorized env data).1, (strike_authorized env data).2, ?_,
    hp1, hp2, hdm, ?_, by decide⟩
  · rw [strike_eq_ok env data hmod hhier]
  · rw [hdm]; exact format_none_head env.rule env.notes

/-- C10 witness: the fourth strike against a user with three recorded
offenses is a Ban whose DM carries the warning wording. -/
theorem strike_ban_dm_says_warning_witness :
    ∃ data' o, strike
        { actor_can_moderate := true, hierarchy_blocks := false, user_id := 42,
          rule := "Spam", notes := none, message_link := none,
          platform_delete := fun _ _ => none, timeout_result := none,
          ban_result := none, dm_delivered := true }
        [("42", 3)] = Except.ok (data', o) ∧
      o.punishment = "Ban" ∧ o.td = none ∧
      o.dm_text = format_rule_notice "Spam" none none ∧
      (∃ rest, o.dm_text = "You received a **warning** for a rule violation." ++ rest) ∧
      format_rule_notice "Spam" none none =
        "You received a **warning** for a rule violation.\n**Violated rule:** Spam\nIf you believe this was a mistake, you may reply here." :=
  strike_ban_dm_says_warning _ [("42", 3)] rfl rfl (by decide)

end SekaiModBot
